import Mathlib

/-!
Shallow embedding of the svfplayer command-execution engine (src/main.rs).

The interpreter state `Svf`, the state translator `to_jtag_state`, the
command dispatcher `Svf.run_command` and the driver loop `run_svf` are
translated from the source.  Mutation of the `Svf` struct becomes explicit
state passing; the calls made on the JTAG state machine and on the cable
(`sm.change_mode`, `sm.cable.read_write_data`, `sm.cable.change_mode` used
for idle clocking) become an explicit event trace; a `panic!` /
`unimplemented!` / failed `assert!` becomes the outcome `Outcome.fatal`.
The bytes captured from the cable by `read_write_data` are an input (the
`read` parameter), since they come from the device under test.
-/

/-- The svf crate's canonical protocol states (enum `State`), 16 values. -/
inductive State where
  | RESET
  | IDLE
  | DRSELECT
  | DRCAPTURE
  | DRSHIFT
  | DREXIT1
  | DRPAUSE
  | DREXIT2
  | DRUPDATE
  | IRSELECT
  | IRCAPTURE
  | IRSHIFT
  | IREXIT1
  | IRPAUSE
  | IREXIT2
  | IRUPDATE
  deriving DecidableEq, Fintype

/-- The jtag_taps crate's controller states (enum `JtagState`), 16 values. -/
inductive JtagState where
  | Reset
  | Idle
  | SelectDR
  | CaptureDR
  | ShiftDR
  | Exit1DR
  | PauseDR
  | Exit2DR
  | UpdateDR
  | SelectIR
  | CaptureIR
  | ShiftIR
  | Exit1IR
  | PauseIR
  | Exit2IR
  | UpdateIR
  deriving DecidableEq, Fintype

/-- TRST modes of the svf crate (only `Off` is acted on by the player). -/
inductive TRSTMode where
  | On
  | Off
  | Z
  | Absent
  deriving DecidableEq

/-- Clock source selector for RUNTEST. -/
inductive RunClock where
  | TCK
  | SCK
  deriving DecidableEq

/-- Time qualifier of a RUNTEST command.  The player never inspects its
fields, only its presence, so it is carried as an opaque tag. -/
structure RunTestTime where
  tag : Nat
  deriving DecidableEq

/-- The two forms of a RUNTEST specification. -/
inductive RunTestForm where
  | Clocked (run_count : Nat) (run_clk : RunClock) (time : Option RunTestTime)
  | Timed (time : RunTestTime)
  deriving DecidableEq

/-- A shift pattern as delivered by the parser: declared bit length and the
optionally present tdi/tdo/mask/smask byte vectors.  Bytes are Nat values
below 256; the player only combines them with bitwise AND, which cannot
overflow. -/
structure Pattern where
  length : Nat
  tdi : Option (List Nat)
  tdo : Option (List Nat)
  mask : Option (List Nat)
  smask : Option (List Nat)
  deriving DecidableEq

/-- The svf crate's parsed command variants used by the player.  `PIOMAP`
stands for the commands reaching the catch-all arm of the dispatcher. -/
inductive Command where
  | TRST (mode : TRSTMode)
  | EndDR (state : State)
  | EndIR (state : State)
  | State (path : Option (List State)) (end_ : State)
  | HIR (pattern : Pattern)
  | HDR (pattern : Pattern)
  | TIR (pattern : Pattern)
  | TDR (pattern : Pattern)
  | SIR (pattern : Pattern)
  | SDR (pattern : Pattern)
  | RunTest (run_state : Option State) (form : RunTestForm) (end_state : Option State)
  | Frequency (freq : Option Nat)
  | PIOMAP
  deriving DecidableEq

/-- A parse error from the external parser; its payload is opaque to the
player, which only forwards it. -/
structure ParseError where
  code : Nat
  deriving DecidableEq

/-- The interpreter state struct `Svf` of src/main.rs. -/
structure Svf where
  endir : JtagState
  enddr : JtagState
  end_state : JtagState
  run_state : JtagState
  sir_smask : List Nat
  sir_mask : List Nat
  sir_tdi : List Nat
  sdr_smask : List Nat
  sdr_mask : List Nat
  sdr_tdi : List Nat
  deriving DecidableEq

/-- `Svf::new`: all four stored states start at Idle, all six vectors empty. -/
def Svf.new : Svf :=
  ⟨JtagState.Idle, JtagState.Idle, JtagState.Idle, JtagState.Idle,
   [], [], [], [], [], []⟩

/-- `Svf::to_jtag_state`: the state translator. -/
def to_jtag_state : State → JtagState
  | State.RESET => JtagState.Reset
  | State.IDLE => JtagState.Idle
  | State.DRSELECT => JtagState.SelectDR
  | State.DRCAPTURE => JtagState.CaptureDR
  | State.DRSHIFT => JtagState.ShiftDR
  | State.DREXIT1 => JtagState.Exit1DR
  | State.DRPAUSE => JtagState.PauseDR
  | State.DREXIT2 => JtagState.Exit2DR
  | State.DRUPDATE => JtagState.UpdateDR
  | State.IRSELECT => JtagState.SelectIR
  | State.IRCAPTURE => JtagState.CaptureIR
  | State.IRSHIFT => JtagState.ShiftIR
  | State.IREXIT1 => JtagState.Exit1IR
  | State.IRPAUSE => JtagState.PauseIR
  | State.IREXIT2 => JtagState.Exit2IR
  | State.IRUPDATE => JtagState.UpdateIR

/-- The evident inverse of the state translator (not part of the source; it
exists because the translator is a bijection on the two 16-element
enumerations). -/
def from_jtag_state : JtagState → State
  | JtagState.Reset => State.RESET
  | JtagState.Idle => State.IDLE
  | JtagState.SelectDR => State.DRSELECT
  | JtagState.CaptureDR => State.DRCAPTURE
  | JtagState.ShiftDR => State.DRSHIFT
  | JtagState.Exit1DR => State.DREXIT1
  | JtagState.PauseDR => State.DRPAUSE
  | JtagState.Exit2DR => State.DREXIT2
  | JtagState.UpdateDR => State.DRUPDATE
  | JtagState.SelectIR => State.IRSELECT
  | JtagState.CaptureIR => State.IRCAPTURE
  | JtagState.ShiftIR => State.IRSHIFT
  | JtagState.Exit1IR => State.IREXIT1
  | JtagState.PauseIR => State.IRPAUSE
  | JtagState.Exit2IR => State.IREXIT2
  | JtagState.UpdateIR => State.IRUPDATE

/-- One observable call on the JTAG state machine or the cable:
`ChangeMode` is `sm.change_mode(state)`, `ReadWrite buf bits` is
`sm.cable.read_write_data(&buf, bits, true)`, and `IdleCycles n` is
`sm.cable.change_mode(&vec![0; n], true)` used to clock idle cycles. -/
inductive Event where
  | ChangeMode (state : JtagState)
  | ReadWrite (buf : List Nat) (bits : Nat)
  | IdleCycles (count : Nat)
  deriving DecidableEq

/-- Whether a command completed or hit a panic / failed assert /
`unimplemented!`. -/
inductive Outcome where
  | ok
  | fatal
  deriving DecidableEq

/-- Result of running one command: the interpreter state after it, the
events it issued (in order), and whether it completed. -/
structure CmdResult where
  svf : Svf
  trace : List Event
  out : Outcome
  deriving DecidableEq

def setEndir (s : Svf) (v : JtagState) : Svf :=
  ⟨v, s.enddr, s.end_state, s.run_state, s.sir_smask, s.sir_mask, s.sir_tdi,
   s.sdr_smask, s.sdr_mask, s.sdr_tdi⟩

def setEnddr (s : Svf) (v : JtagState) : Svf :=
  ⟨s.endir, v, s.end_state, s.run_state, s.sir_smask, s.sir_mask, s.sir_tdi,
   s.sdr_smask, s.sdr_mask, s.sdr_tdi⟩

def setEndState (s : Svf) (v : JtagState) : Svf :=
  ⟨s.endir, s.enddr, v, s.run_state, s.sir_smask, s.sir_mask, s.sir_tdi,
   s.sdr_smask, s.sdr_mask, s.sdr_tdi⟩

def setRunState (s : Svf) (v : JtagState) : Svf :=
  ⟨s.endir, s.enddr, s.end_state, v, s.sir_smask, s.sir_mask, s.sir_tdi,
   s.sdr_smask, s.sdr_mask, s.sdr_tdi⟩

def setSirSmask (s : Svf) (v : List Nat) : Svf :=
  ⟨s.endir, s.enddr, s.end_state, s.run_state, v, s.sir_mask, s.sir_tdi,
   s.sdr_smask, s.sdr_mask, s.sdr_tdi⟩

def setSirMask (s : Svf) (v : List Nat) : Svf :=
  ⟨s.endir, s.enddr, s.end_state, s.run_state, s.sir_smask, v, s.sir_tdi,
   s.sdr_smask, s.sdr_mask, s.sdr_tdi⟩

def setSirTdi (s : Svf) (v : List Nat) : Svf :=
  ⟨s.endir, s.enddr, s.end_state, s.run_state, s.sir_smask, s.sir_mask, v,
   s.sdr_smask, s.sdr_mask, s.sdr_tdi⟩

def setSdrSmask (s : Svf) (v : List Nat) : Svf :=
  ⟨s.endir, s.enddr, s.end_state, s.run_state, s.sir_smask, s.sir_mask, s.sir_tdi,
   v, s.sdr_mask, s.sdr_tdi⟩

def setSdrMask (s : Svf) (v : List Nat) : Svf :=
  ⟨s.endir, s.enddr, s.end_state, s.run_state, s.sir_smask, s.sir_mask, s.sir_tdi,
   s.sdr_smask, v, s.sdr_tdi⟩

def setSdrTdi (s : Svf) (v : List Nat) : Svf :=
  ⟨s.endir, s.enddr, s.end_state, s.run_state, s.sir_smask, s.sir_mask, s.sir_tdi,
   s.sdr_smask, s.sdr_mask, v⟩

/-- The SIR field merge of src/main.rs lines 96-104: each of smask, mask,
tdi replaces the stored vector exactly when present. -/
def mergeSIR (s : Svf) (p : Pattern) : Svf :=
  let s1 := match p.smask with
    | some v => setSirSmask s v
    | none => s
  let s2 := match p.mask with
    | some v => setSirMask s1 v
    | none => s1
  match p.tdi with
  | some v => setSirTdi s2 v
  | none => s2

/-- The SDR field merge of src/main.rs lines 125-133. -/
def mergeSDR (s : Svf) (p : Pattern) : Svf :=
  let s1 := match p.smask with
    | some v => setSdrSmask s v
    | none => s
  let s2 := match p.mask with
    | some v => setSdrMask s1 v
    | none => s1
  match p.tdi with
  | some v => setSdrTdi s2 v
  | none => s2

/-- RUNTEST sticky-state merge of src/main.rs lines 154-159: the end_state
field is updated first, then run_state, each only when present. -/
def mergeRunTest (s : Svf) (rs es : Option State) : Svf :=
  let s1 := match es with
    | some st => setEndState s (to_jtag_state st)
    | none => s
  match rs with
  | some st => setRunState s1 (to_jtag_state st)
  | none => s1

/-- The final-byte valid-bit count: `let mut len = (pattern.length % 8) as
u8; if len == 0 { len = 8 }`. -/
def finalBits (length : Nat) : Nat :=
  if length % 8 = 0 then 8 else length % 8

/-- The SIR tdo verification loop of src/main.rs lines 119-121: each
captured byte is compared raw against the expected byte ANDed with the
compare-mask byte (`assert_eq!(*r, tdo & mask)`); iteration is bounded by
the shortest of the three vectors via `zip`. -/
def checkSIR (read tdo mask : List Nat) : Bool :=
  (List.zip read (List.zip tdo mask)).all fun rtm =>
    rtm.1 == Nat.land rtm.2.1 rtm.2.2

/-- The SDR tdo verification loop of src/main.rs lines 148-150: both sides
are masked (`assert_eq!(r & mask, tdo & mask)`). -/
def checkSDR (read tdo mask : List Nat) : Bool :=
  (List.zip read (List.zip tdo mask)).all fun rtm =>
    Nat.land rtm.1 rtm.2.2 == Nat.land rtm.2.1 rtm.2.2

/-- The idle-cycle batching loop of src/main.rs lines 165-174: while more
than 100 cycles remain emit a full batch of 100, otherwise emit exactly the
remaining count and stop; the returned list is the sequence of batch sizes
passed to the cable. -/
def emitBatches (run_count : Nat) : List Nat :=
  if run_count = 0 then []
  else if h : 100 < run_count then 100 :: emitBatches (run_count - 100)
  else [run_count]
termination_by run_count
decreasing_by omega

/-- `Svf::run_command`, one step of the dispatcher.  `read` is the byte
vector captured by `read_write_data` when the command performs a shift
(ignored otherwise). -/
def Svf.run_command (s : Svf) (cmd : Command) (read : List Nat) : CmdResult :=
  match cmd with
  | Command.TRST mode =>
      if mode = TRSTMode.Off then ⟨s, [], Outcome.ok⟩
      else ⟨s, [], Outcome.fatal⟩
  | Command.EndDR st => ⟨setEnddr s (to_jtag_state st), [], Outcome.ok⟩
  | Command.EndIR st => ⟨setEndir s (to_jtag_state st), [], Outcome.ok⟩
  | Command.State path e =>
      match path with
      | none => ⟨s, [Event.ChangeMode (to_jtag_state e)], Outcome.ok⟩
      | some _ => ⟨s, [], Outcome.fatal⟩
  | Command.HIR p =>
      if p.length = 0 then ⟨s, [], Outcome.ok⟩ else ⟨s, [], Outcome.fatal⟩
  | Command.HDR p =>
      if p.length = 0 then ⟨s, [], Outcome.ok⟩ else ⟨s, [], Outcome.fatal⟩
  | Command.TIR p =>
      if p.length = 0 then ⟨s, [], Outcome.ok⟩ else ⟨s, [], Outcome.fatal⟩
  | Command.TDR p =>
      if p.length = 0 then ⟨s, [], Outcome.ok⟩ else ⟨s, [], Outcome.fatal⟩
  | Command.SIR p =>
      let s2 := mergeSIR s p
      let buf := List.zipWith Nat.land s2.sir_tdi s2.sir_smask
      let tr := [Event.ChangeMode JtagState.ShiftIR,
                 Event.ReadWrite buf (finalBits p.length),
                 Event.ChangeMode s2.endir]
      let out := match p.tdo with
        | none => Outcome.ok
        | some tdo =>
            if checkSIR read tdo s2.sir_mask then Outcome.ok else Outcome.fatal
      ⟨s2, tr, out⟩
  | Command.SDR p =>
      let s2 := mergeSDR s p
      let buf := List.zipWith Nat.land s2.sdr_tdi s2.sdr_smask
      let tr := [Event.ChangeMode JtagState.ShiftDR,
                 Event.ReadWrite buf (finalBits p.length),
                 Event.ChangeMode s2.enddr]
      let out := match p.tdo with
        | none => Outcome.ok
        | some tdo =>
            if checkSDR read tdo s2.sdr_mask then Outcome.ok else Outcome.fatal
      ⟨s2, tr, out⟩
  | Command.RunTest rs form es =>
      let s2 := mergeRunTest s rs es
      match form with
      | RunTestForm.Clocked run_count run_clk time =>
          if time.isSome then ⟨s2, [Event.ChangeMode s2.run_state], Outcome.fatal⟩
          else if run_clk = RunClock.TCK then
            ⟨s2, Event.ChangeMode s2.run_state ::
                   ((emitBatches run_count).map Event.IdleCycles ++
                    [Event.ChangeMode s2.end_state]),
             Outcome.ok⟩
          else ⟨s2, [Event.ChangeMode s2.run_state], Outcome.fatal⟩
      | RunTestForm.Timed _ => ⟨s2, [Event.ChangeMode s2.run_state], Outcome.fatal⟩
  | Command.Frequency _ => ⟨s, [], Outcome.ok⟩
  | Command.PIOMAP => ⟨s, [], Outcome.fatal⟩

/-- Result of a whole run: final interpreter state, all events in order,
the commands dispatched (in order), and how the run ended.  A rust panic
inside `run_command` aborts the process; that is `RunResult.aborted`. -/
inductive RunResult where
  | ok
  | parse_failed (e : ParseError)
  | aborted
  deriving DecidableEq

structure RunOutcome where
  svf : Svf
  trace : List Event
  execed : List Command
  result : RunResult
  deriving DecidableEq

/-- The loop body of `run_svf`: commands arrive as parse results in order;
the first parse error stops the loop and is returned; a fatal command stops
the process.  `reads` supplies, per command, the bytes the cable would
capture for that command's shift. -/
def runLoop (s : Svf) (cmds : List (Except ParseError Command))
    (reads : List (List Nat)) : RunOutcome :=
  match cmds with
  | [] => ⟨s, [], [], RunResult.ok⟩
  | Except.error e :: _ => ⟨s, [], [], RunResult.parse_failed e⟩
  | Except.ok c :: rest =>
      let r := s.run_command c (reads.headD [])
      match r.out with
      | Outcome.fatal => ⟨r.svf, r.trace, [c], RunResult.aborted⟩
      | Outcome.ok =>
          let k := runLoop r.svf rest reads.tail
          ⟨k.svf, r.trace ++ k.trace, c :: k.execed, k.result⟩

/-- `run_svf`: a fresh `Svf::new` interpreter run over the parser's output
sequence. -/
def run_svf (cmds : List (Except ParseError Command))
    (reads : List (List Nat)) : RunOutcome :=
  runLoop Svf.new cmds reads

/-! Helper lemmas about the embedded definitions. -/

lemma mergeSIR_eq (s : Svf) (p : Pattern) :
    mergeSIR s p =
      ⟨s.endir, s.enddr, s.end_state, s.run_state,
       p.smask.getD s.sir_smask, p.mask.getD s.sir_mask, p.tdi.getD s.sir_tdi,
       s.sdr_smask, s.sdr_mask, s.sdr_tdi⟩ := by
  cases h1 : p.smask <;> cases h2 : p.mask <;> cases h3 : p.tdi <;>
    simp [mergeSIR, setSirSmask, setSirMask, setSirTdi, h1, h2, h3]

lemma mergeSDR_eq (s : Svf) (p : Pattern) :
    mergeSDR s p =
      ⟨s.endir, s.enddr, s.end_state, s.run_state,
       s.sir_smask, s.sir_mask, s.sir_tdi,
       p.smask.getD s.sdr_smask, p.mask.getD s.sdr_mask, p.tdi.getD s.sdr_tdi⟩ := by
  cases h1 : p.smask <;> cases h2 : p.mask <;> cases h3 : p.tdi <;>
    simp [mergeSDR, setSdrSmask, setSdrMask, setSdrTdi, h1, h2, h3]

lemma mergeRunTest_eq (s : Svf) (rs es : Option State) :
    mergeRunTest s rs es =
      ⟨s.endir, s.enddr,
       es.elim s.end_state to_jtag_state, rs.elim s.run_state to_jtag_state,
       s.sir_smask, s.sir_mask, s.sir_tdi,
       s.sdr_smask, s.sdr_mask, s.sdr_tdi⟩ := by
  cases rs <;> cases es <;>
    simp [mergeRunTest, setEndState, setRunState, Option.elim]

lemma emitBatches_zero : emitBatches 0 = [] := by
  rw [emitBatches.eq_def]
  simp

lemma emitBatches_le (n : Nat) (h0 : 0 < n) (h1 : n ≤ 100) :
    emitBatches n = [n] := by
  rw [emitBatches.eq_def, if_neg (show ¬ n = 0 by omega),
    dif_neg (show ¬ 100 < n by omega)]

lemma emitBatches_gt (n : Nat) (h : 100 < n) :
    emitBatches n = 100 :: emitBatches (n - 100) := by
  rw [emitBatches.eq_def, if_neg (show ¬ n = 0 by omega), dif_pos h]

lemma emitBatches_replicate (n : Nat) (h : 0 < n) :
    emitBatches n =
      List.replicate ((n - 1) / 100) 100 ++ [n - 100 * ((n - 1) / 100)] := by
  induction n using Nat.strong_induction_on with
  | _ n ih =>
    by_cases h1 : 100 < n
    · rw [emitBatches_gt n h1, ih (n - 100) (by omega) (by omega)]
      have hd : (n - 1) / 100 = (n - 100 - 1) / 100 + 1 := by omega
      have ha : n - 100 - 100 * ((n - 100 - 1) / 100)
          = n - 100 * ((n - 100 - 1) / 100 + 1) := by omega
      rw [hd, ha, List.replicate_succ, List.cons_append]
    · rw [emitBatches_le n h (by omega)]
      have hz : (n - 1) / 100 = 0 := by omega
      rw [hz]
      simp

lemma zipWith_land_getD (xs : List Nat) :
    ∀ (ys : List Nat) (i : Nat),
      (List.zipWith Nat.land xs ys).getD i 0
        = Nat.land (xs.getD i 0) (ys.getD i 0) := by
  induction xs with
  | nil => intro ys i; simp [Nat.land]
  | cons x xs ih =>
    intro ys i
    cases ys with
    | nil => simp [Nat.land]
    | cons y ys =>
      cases i with
      | zero => simp
      | succ j => simpa using ih ys j

lemma runLoop_ok_cons (s : Svf) (c : Command)
    (rest : List (Except ParseError Command)) (reads : List (List Nat))
    (h : (s.run_command c (reads.headD [])).out = Outcome.ok) :
    runLoop s (Except.ok c :: rest) reads =
      ⟨(runLoop (s.run_command c (reads.headD [])).svf rest reads.tail).svf,
       (s.run_command c (reads.headD [])).trace ++
         (runLoop (s.run_command c (reads.headD [])).svf rest reads.tail).trace,
       c :: (runLoop (s.run_command c (reads.headD [])).svf rest reads.tail).execed,
       (runLoop (s.run_command c (reads.headD [])).svf rest reads.tail).result⟩ := by
  rw [List.headD_eq_head?] at h
  simp [runLoop, List.headD_eq_head?, h]

lemma runLoop_fatal_cons (s : Svf) (c : Command)
    (rest : List (Except ParseError Command)) (reads : List (List Nat))
    (h : (s.run_command c (reads.headD [])).out = Outcome.fatal) :
    runLoop s (Except.ok c :: rest) reads =
      ⟨(s.run_command c (reads.headD [])).svf,
       (s.run_command c (reads.headD [])).trace, [c], RunResult.aborted⟩ := by
  rw [List.headD_eq_head?] at h
  simp [runLoop, List.headD_eq_head?, h]

/-! Claim theorems. -/

/-- C1: the claim says both SIR and SDR verify the captured response with
the masked comparison (captured AND mask) = (expected AND mask).  SDR does
(line 149), but the SIR check (line 120) compares the captured byte RAW
against (expected AND mask).  At captured byte 0xAA, expected 0xA0 and
compare-mask 0xF0 the masked comparison holds (both sides are 0xA0), so the
claim says the command succeeds; the SIR command nevertheless fails fatally
(0xAA is not 0xA0), while the identical SDR command succeeds. -/
theorem C1_sir_capture_compared_unmasked :
    Nat.land 0xAA 0xF0 = Nat.land 0xA0 0xF0 ∧
    (Svf.new.run_command
      (Command.SIR ⟨8, some [0], some [0xA0], some [0xF0], some [0xFF]⟩)
      [0xAA]).out = Outcome.fatal ∧
    (Svf.new.run_command
      (Command.SDR ⟨8, some [0], some [0xA0], some [0xF0], some [0xFF]⟩)
      [0xAA]).out = Outcome.ok := by
  decide

/-- C3: the valid-bit count of the final byte passed to the transfer is
length mod 8 when nonzero and 8 otherwise; in particular it is the length
itself for 1..7, and 8 for 0, 8, 16, 24; and every SIR/SDR command passes
exactly finalBits of its declared length to the cable transfer. -/
theorem C3_final_byte_bits :
    (∀ L, L % 8 ≠ 0 → finalBits L = L % 8) ∧
    (∀ L, L % 8 = 0 → finalBits L = 8) ∧
    (∀ L, 1 ≤ L → L ≤ 7 → finalBits L = L) ∧
    finalBits 8 = 8 ∧ finalBits 16 = 8 ∧ finalBits 24 = 8 ∧ finalBits 0 = 8 ∧
    (∀ (s : Svf) (p : Pattern) (rd : List Nat), ∃ buf,
      Event.ReadWrite buf (finalBits p.length)
        ∈ (s.run_command (Command.SIR p) rd).trace) ∧
    (∀ (s : Svf) (p : Pattern) (rd : List Nat), ∃ buf,
      Event.ReadWrite buf (finalBits p.length)
        ∈ (s.run_command (Command.SDR p) rd).trace) := by
  refine ⟨?_, ?_, ?_, by decide, by decide, by decide, by decide, ?_, ?_⟩
  · intro L h
    simp [finalBits, h]
  · intro L h
    simp [finalBits, h]
  · intro L h1 h2
    have hm : L % 8 = L := Nat.mod_eq_of_lt (by omega)
    simp only [finalBits, hm]
    rw [if_neg (by omega)]
  · intro s p rd
    exact ⟨List.zipWith Nat.land (mergeSIR s p).sir_tdi (mergeSIR s p).sir_smask,
      by simp [Svf.run_command]⟩
  · intro s p rd
    exact ⟨List.zipWith Nat.land (mergeSDR s p).sdr_tdi (mergeSDR s p).sdr_smask,
      by simp [Svf.run_command]⟩

/-- Witness for C3 at a concrete length. -/
theorem C3_final_byte_bits_witness : finalBits 3 = 3 % 8 :=
  C3_final_byte_bits.1 3 (by decide)

/-- C6: the state translator is total (it is a Lean function on the closed
16-state enumeration), injective, and round-tripping through it and its
inverse returns the original state for all 16 inputs. -/
theorem C6_state_translator_injective_roundtrip :
    (∀ a b : State, to_jtag_state a = to_jtag_state b → a = b) ∧
    (∀ st : State, from_jtag_state (to_jtag_state st) = st) := by
  decide

/-- Witness for C6 at concrete states. -/
theorem C6_state_translator_witness :
    State.DRSHIFT = State.DRSHIFT ∧
    from_jtag_state (to_jtag_state State.IRPAUSE) = State.IRPAUSE :=
  ⟨C6_state_translator_injective_roundtrip.1 State.DRSHIFT State.DRSHIFT rfl,
   C6_state_translator_injective_roundtrip.2 State.IRPAUSE⟩

/-- C2: for each register context independently, an SIR/SDR command
replaces exactly the stored vectors whose fields are present (stated via
Option.getD: present fields replace, absent fields keep the prior value),
leaves the other register's vectors untouched, and a command supplying none
of smask/mask/tdi leaves the whole interpreter state unchanged. -/
theorem C2_sticky_field_merge :
    ∀ (s : Svf) (p : Pattern) (rd : List Nat),
      ((s.run_command (Command.SIR p) rd).svf.sir_smask = p.smask.getD s.sir_smask ∧
       (s.run_command (Command.SIR p) rd).svf.sir_mask = p.mask.getD s.sir_mask ∧
       (s.run_command (Command.SIR p) rd).svf.sir_tdi = p.tdi.getD s.sir_tdi ∧
       (s.run_command (Command.SIR p) rd).svf.sdr_smask = s.sdr_smask ∧
       (s.run_command (Command.SIR p) rd).svf.sdr_mask = s.sdr_mask ∧
       (s.run_command (Command.SIR p) rd).svf.sdr_tdi = s.sdr_tdi) ∧
      ((s.run_command (Command.SDR p) rd).svf.sdr_smask = p.smask.getD s.sdr_smask ∧
       (s.run_command (Command.SDR p) rd).svf.sdr_mask = p.mask.getD s.sdr_mask ∧
       (s.run_command (Command.SDR p) rd).svf.sdr_tdi = p.tdi.getD s.sdr_tdi ∧
       (s.run_command (Command.SDR p) rd).svf.sir_smask = s.sir_smask ∧
       (s.run_command (Command.SDR p) rd).svf.sir_mask = s.sir_mask ∧
       (s.run_command (Command.SDR p) rd).svf.sir_tdi = s.sir_tdi) ∧
      (p.smask = none → p.mask = none → p.tdi = none →
        (s.run_command (Command.SIR p) rd).svf = s ∧
        (s.run_command (Command.SDR p) rd).svf = s) := by
  intro s p rd
  refine ⟨?_, ?_, ?_⟩
  · simp [Svf.run_command, mergeSIR_eq]
  · simp [Svf.run_command, mergeSDR_eq]
  · intro h1 h2 h3
    cases s with
    | mk e1 e2 e3 e4 v1 v2 v3 v4 v5 v6 =>
      constructor
      · simp [Svf.run_command, mergeSIR_eq, h1, h2, h3]
      · simp [Svf.run_command, mergeSDR_eq, h1, h2, h3]

/-- Witness for C2: a pattern with no smask/mask/tdi is a state no-op. -/
theorem C2_sticky_field_merge_witness :
    (Svf.new.run_command (Command.SIR ⟨4, none, none, none, none⟩) []).svf = Svf.new ∧
    (Svf.new.run_command (Command.SDR ⟨4, none, none, none, none⟩) []).svf = Svf.new :=
  (C2_sticky_field_merge Svf.new ⟨4, none, none, none, none⟩ []).2.2 rfl rfl rfl

/-- C4: the buffer sent on the wire by an SIR/SDR shift is the byte-wise
AND of the stored (post-merge) tdi and smask vectors, its length is the
minimum of the two vector lengths, and every byte position carries
tdi AND smask (stated via getD, which also covers positions past the
shorter vector, where the buffer ends). -/
theorem C4_output_buffer_masked :
    ∀ (s : Svf) (p : Pattern) (rd : List Nat),
      (∃ buf,
        Event.ReadWrite buf (finalBits p.length)
          ∈ (s.run_command (Command.SIR p) rd).trace ∧
        buf.length
          = min (mergeSIR s p).sir_tdi.length (mergeSIR s p).sir_smask.length ∧
        ∀ i, buf.getD i 0
          = Nat.land ((mergeSIR s p).sir_tdi.getD i 0)
              ((mergeSIR s p).sir_smask.getD i 0)) ∧
      (∃ buf,
        Event.ReadWrite buf (finalBits p.length)
          ∈ (s.run_command (Command.SDR p) rd).trace ∧
        buf.length
          = min (mergeSDR s p).sdr_tdi.length (mergeSDR s p).sdr_smask.length ∧
        ∀ i, buf.getD i 0
          = Nat.land ((mergeSDR s p).sdr_tdi.getD i 0)
              ((mergeSDR s p).sdr_smask.getD i 0)) := by
  intro s p rd
  constructor
  · refine ⟨List.zipWith Nat.land (mergeSIR s p).sir_tdi (mergeSIR s p).sir_smask,
      ?_, ?_, ?_⟩
    · simp [Svf.run_command]
    · simp [List.length_zipWith]
    · intro i
      exact zipWith_land_getD _ _ i
  · refine ⟨List.zipWith Nat.land (mergeSDR s p).sdr_tdi (mergeSDR s p).sdr_smask,
      ?_, ?_, ?_⟩
    · simp [Svf.run_command]
    · simp [List.length_zipWith]
    · intro i
      exact zipWith_land_getD _ _ i

/-- C5: a clocked RunTest transitions to the merged run-state, emits its
idle cycles in batches of at most 100 (full batches of 100 while more than
100 remain, then exactly the remainder, stated in closed form), and then
transitions to the merged end-state; for 250 cycles the batch sequence is
exactly [100, 100, 50]. -/
theorem C5_runtest_batching :
    emitBatches 250 = [100, 100, 50] ∧
    (∀ (s : Svf) (rs es : Option State) (n : Nat) (rd : List Nat),
      (s.run_command (Command.RunTest rs (RunTestForm.Clocked n RunClock.TCK none) es) rd).trace =
        Event.ChangeMode (mergeRunTest s rs es).run_state ::
          ((emitBatches n).map Event.IdleCycles ++
           [Event.ChangeMode (mergeRunTest s rs es).end_state]) ∧
      (s.run_command (Command.RunTest rs (RunTestForm.Clocked n RunClock.TCK none) es) rd).out
        = Outcome.ok) ∧
    (∀ n, 0 < n →
      emitBatches n
        = List.replicate ((n - 1) / 100) 100 ++ [n - 100 * ((n - 1) / 100)]) ∧
    (∀ n b, b ∈ emitBatches n → 0 < b ∧ b ≤ 100) := by
  refine ⟨?_, ?_, emitBatches_replicate, ?_⟩
  · rw [emitBatches_replicate 250 (by norm_num)]
    decide
  · intro s rs es n rd
    constructor <;> simp [Svf.run_command]
  · intro n b hb
    rcases Nat.eq_zero_or_pos n with h | h
    · subst h
      rw [emitBatches_zero] at hb
      simp at hb
    · rw [emitBatches_replicate n h] at hb
      simp [List.mem_append, List.mem_replicate] at hb
      rcases hb with ⟨-, rfl⟩ | rfl <;> omega

/-- Witness for C5: the closed form evaluated at 250 cycles. -/
theorem C5_runtest_batching_witness :
    emitBatches 250
      = List.replicate ((250 - 1) / 100) 100 ++ [250 - 100 * ((250 - 1) / 100)] :=
  C5_runtest_batching.2.2.1 250 (by norm_num)

/-- C7: TRST with a non-off mode, a State command with an explicit path,
HIR/HDR/TIR/TDR with nonzero length, a timed RunTest, a RunTest time
qualifier, and a non-TCK clock source are all fatal, and a fatal command
stops the driver loop: no subsequent command of the stream is executed. -/
theorem C7_unsupported_features_fatal :
    (∀ (s : Svf) (rd : List Nat) (m : TRSTMode), m ≠ TRSTMode.Off →
      (s.run_command (Command.TRST m) rd).out = Outcome.fatal) ∧
    (∀ (s : Svf) (rd : List Nat) (pth : List State) (e : State),
      (s.run_command (Command.State (some pth) e) rd).out = Outcome.fatal) ∧
    (∀ (s : Svf) (rd : List Nat) (p : Pattern), p.length ≠ 0 →
      (s.run_command (Command.HIR p) rd).out = Outcome.fatal ∧
      (s.run_command (Command.HDR p) rd).out = Outcome.fatal ∧
      (s.run_command (Command.TIR p) rd).out = Outcome.fatal ∧
      (s.run_command (Command.TDR p) rd).out = Outcome.fatal) ∧
    (∀ (s : Svf) (rd : List Nat) (rs es : Option State) (t : RunTestTime),
      (s.run_command (Command.RunTest rs (RunTestForm.Timed t) es) rd).out = Outcome.fatal) ∧
    (∀ (s : Svf) (rd : List Nat) (rs es : Option State) (n : Nat) (c : RunClock) (t : RunTestTime),
      (s.run_command (Command.RunTest rs (RunTestForm.Clocked n c (some t)) es) rd).out
        = Outcome.fatal) ∧
    (∀ (s : Svf) (rd : List Nat) (rs es : Option State) (n : Nat) (c : RunClock)
        (tm : Option RunTestTime), c ≠ RunClock.TCK →
      (s.run_command (Command.RunTest rs (RunTestForm.Clocked n c tm) es) rd).out
        = Outcome.fatal) ∧
    (∀ (s : Svf) (reads : List (List Nat)) (c : Command)
        (rest : List (Except ParseError Command)),
      (s.run_command c (reads.headD [])).out = Outcome.fatal →
      (runLoop s (Except.ok c :: rest) reads).execed = [c] ∧
      (runLoop s (Except.ok c :: rest) reads).result = RunResult.aborted ∧
      (runLoop s (Except.ok c :: rest) reads).trace
        = (s.run_command c (reads.headD [])).trace) := by
  refine ⟨?_, ?_, ?_, ?_, ?_, ?_, ?_⟩
  · intro s rd m h
    simp [Svf.run_command, h]
  · intro s rd pth e
    simp [Svf.run_command]
  · intro s rd p h
    refine ⟨?_, ?_, ?_, ?_⟩ <;> simp [Svf.run_command, h]
  · intro s rd rs es t
    simp [Svf.run_command]
  · intro s rd rs es n c t
    simp [Svf.run_command]
  · intro s rd rs es n c tm h
    cases tm <;> simp [Svf.run_command, h]
  · intro s reads c rest h
    simp [runLoop_fatal_cons s c rest reads h]

/-- Witness for C7: TRST with mode On is fatal. -/
theorem C7_unsupported_features_fatal_witness :
    (Svf.new.run_command (Command.TRST TRSTMode.On) []).out = Outcome.fatal :=
  C7_unsupported_features_fatal.1 Svf.new [] TRSTMode.On (by decide)

lemma run_command_endir_eq (s : Svf) (c : Command) (rd : List Nat)
    (h : ∀ st, c ≠ Command.EndIR st) :
    (s.run_command c rd).svf.endir = s.endir := by
  cases c with
  | TRST m => simp [Svf.run_command, apply_ite]
  | EndDR st => simp [Svf.run_command, setEnddr]
  | EndIR st => exact absurd rfl (h st)
  | State path e => cases path <;> simp [Svf.run_command]
  | HIR p => simp [Svf.run_command, apply_ite]
  | HDR p => simp [Svf.run_command, apply_ite]
  | TIR p => simp [Svf.run_command, apply_ite]
  | TDR p => simp [Svf.run_command, apply_ite]
  | SIR p => simp [Svf.run_command, mergeSIR_eq]
  | SDR p => simp [Svf.run_command, mergeSDR_eq]
  | RunTest rs f es => cases f <;> simp [Svf.run_command, apply_ite, mergeRunTest_eq]
  | Frequency f => simp [Svf.run_command]
  | PIOMAP => simp [Svf.run_command]

lemma run_command_enddr_eq (s : Svf) (c : Command) (rd : List Nat)
    (h : ∀ st, c ≠ Command.EndDR st) :
    (s.run_command c rd).svf.enddr = s.enddr := by
  cases c with
  | TRST m => simp [Svf.run_command, apply_ite]
  | EndDR st => exact absurd rfl (h st)
  | EndIR st => simp [Svf.run_command, setEndir]
  | State path e => cases path <;> simp [Svf.run_command]
  | HIR p => simp [Svf.run_command, apply_ite]
  | HDR p => simp [Svf.run_command, apply_ite]
  | TIR p => simp [Svf.run_command, apply_ite]
  | TDR p => simp [Svf.run_command, apply_ite]
  | SIR p => simp [Svf.run_command, mergeSIR_eq]
  | SDR p => simp [Svf.run_command, mergeSDR_eq]
  | RunTest rs f es => cases f <;> simp [Svf.run_command, apply_ite, mergeRunTest_eq]
  | Frequency f => simp [Svf.run_command]
  | PIOMAP => simp [Svf.run_command]

lemma run_command_sticky_states_eq (s : Svf) (c : Command) (rd : List Nat)
    (h : ∀ rs f es, c ≠ Command.RunTest rs f es) :
    (s.run_command c rd).svf.run_state = s.run_state ∧
    (s.run_command c rd).svf.end_state = s.end_state := by
  cases c with
  | TRST m => constructor <;> simp [Svf.run_command, apply_ite]
  | EndDR st => constructor <;> simp [Svf.run_command, setEnddr]
  | EndIR st => constructor <;> simp [Svf.run_command, setEndir]
  | State path e => cases path <;> constructor <;> simp [Svf.run_command]
  | HIR p => constructor <;> simp [Svf.run_command, apply_ite]
  | HDR p => constructor <;> simp [Svf.run_command, apply_ite]
  | TIR p => constructor <;> simp [Svf.run_command, apply_ite]
  | TDR p => constructor <;> simp [Svf.run_command, apply_ite]
  | SIR p => constructor <;> simp [Svf.run_command, mergeSIR_eq]
  | SDR p => constructor <;> simp [Svf.run_command, mergeSDR_eq]
  | RunTest rs f es => exact absurd rfl (h rs f es)
  | Frequency f => constructor <;> simp [Svf.run_command]
  | PIOMAP => constructor <;> simp [Svf.run_command]

/-- C8: SIR shifts happen between a transition to Shift-IR and a
transition to the stored endir, SDR shifts between Shift-DR and the stored
enddr; the four stored states default to Idle; EndIR sets exactly endir,
EndDR exactly enddr; endir changes only under EndIR, enddr only under
EndDR, and run_state/end_state only under RunTest. -/
theorem C8_shift_and_end_states :
    (∀ (s : Svf) (p : Pattern) (rd : List Nat), ∃ buf bits,
      (s.run_command (Command.SIR p) rd).trace =
        [Event.ChangeMode JtagState.ShiftIR, Event.ReadWrite buf bits,
         Event.ChangeMode s.endir]) ∧
    (∀ (s : Svf) (p : Pattern) (rd : List Nat), ∃ buf bits,
      (s.run_command (Command.SDR p) rd).trace =
        [Event.ChangeMode JtagState.ShiftDR, Event.ReadWrite buf bits,
         Event.ChangeMode s.enddr]) ∧
    Svf.new.endir = JtagState.Idle ∧
    Svf.new.enddr = JtagState.Idle ∧
    Svf.new.end_state = JtagState.Idle ∧
    Svf.new.run_state = JtagState.Idle ∧
    (∀ (s : Svf) (st : State) (rd : List Nat),
      (s.run_command (Command.EndIR st) rd).svf.endir = to_jtag_state st ∧
      (s.run_command (Command.EndIR st) rd).svf.enddr = s.enddr ∧
      (s.run_command (Command.EndIR st) rd).svf.end_state = s.end_state ∧
      (s.run_command (Command.EndIR st) rd).svf.run_state = s.run_state) ∧
    (∀ (s : Svf) (st : State) (rd : List Nat),
      (s.run_command (Command.EndDR st) rd).svf.enddr = to_jtag_state st ∧
      (s.run_command (Command.EndDR st) rd).svf.endir = s.endir ∧
      (s.run_command (Command.EndDR st) rd).svf.end_state = s.end_state ∧
      (s.run_command (Command.EndDR st) rd).svf.run_state = s.run_state) ∧
    (∀ (s : Svf) (c : Command) (rd : List Nat),
      (∀ st, c ≠ Command.EndIR st) → (s.run_command c rd).svf.endir = s.endir) ∧
    (∀ (s : Svf) (c : Command) (rd : List Nat),
      (∀ st, c ≠ Command.EndDR st) → (s.run_command c rd).svf.enddr = s.enddr) ∧
    (∀ (s : Svf) (c : Command) (rd : List Nat),
      (∀ rs f es, c ≠ Command.RunTest rs f es) →
      (s.run_command c rd).svf.run_state = s.run_state ∧
      (s.run_command c rd).svf.end_state = s.end_state) := by
  refine ⟨?_, ?_, rfl, rfl, rfl, rfl, ?_, ?_, ?_, ?_, ?_⟩
  · intro s p rd
    exact ⟨List.zipWith Nat.land (mergeSIR s p).sir_tdi (mergeSIR s p).sir_smask,
      finalBits p.length, by simp [Svf.run_command, mergeSIR_eq]⟩
  · intro s p rd
    exact ⟨List.zipWith Nat.land (mergeSDR s p).sdr_tdi (mergeSDR s p).sdr_smask,
      finalBits p.length, by simp [Svf.run_command, mergeSDR_eq]⟩
  · intro s st rd
    refine ⟨?_, ?_, ?_, ?_⟩ <;> simp [Svf.run_command, setEndir]
  · intro s st rd
    refine ⟨?_, ?_, ?_, ?_⟩ <;> simp [Svf.run_command, setEnddr]
  · intro s c rd h
    exact run_command_endir_eq s c rd h
  · intro s c rd h
    exact run_command_enddr_eq s c rd h
  · intro s c rd h
    exact run_command_sticky_states_eq s c rd h

/-- Witness for C8: a Frequency command leaves endir unchanged. -/
theorem C8_shift_and_end_states_witness :
    (Svf.new.run_command (Command.Frequency none) []).svf.endir = Svf.new.endir :=
  C8_shift_and_end_states.2.2.2.2.2.2.2.2.1 Svf.new (Command.Frequency none) []
    (fun st => by simp)

/-- C9: a run whose parsed prefix executes without a fatal command
dispatches exactly those commands once, in order; the first parse error is
returned to the caller and nothing at or beyond it is executed, while the
commands before it remain executed. -/
theorem C9_driver_loop (good : List Command) (reads : List (List Nat)) (s : Svf)
    (e : ParseError) (rest : List (Except ParseError Command))
    (h : (runLoop s (good.map Except.ok) reads).result = RunResult.ok) :
    (runLoop s (good.map Except.ok) reads).execed = good ∧
    (runLoop s (good.map Except.ok ++ Except.error e :: rest) reads).result
      = RunResult.parse_failed e ∧
    (runLoop s (good.map Except.ok ++ Except.error e :: rest) reads).execed = good := by
  induction good generalizing s reads with
  | nil =>
      refine ⟨rfl, ?_, ?_⟩ <;> simp [runLoop]
  | cons c cs ih =>
      simp only [List.map_cons, List.cons_append] at h ⊢
      cases ho : (s.run_command c (reads.headD [])).out with
      | fatal =>
          rw [runLoop_fatal_cons s c _ reads ho] at h
          simp at h
      | ok =>
          rw [runLoop_ok_cons s c (cs.map Except.ok) reads ho] at h
          simp at h
          obtain ⟨h1, h2, h3⟩ := ih _ _ h
          refine ⟨?_, ?_, ?_⟩
          · rw [runLoop_ok_cons s c (cs.map Except.ok) reads ho]
            simp [h1]
          · rw [runLoop_ok_cons s c (cs.map Except.ok ++ Except.error e :: rest) reads ho]
            simp [h2]
          · rw [runLoop_ok_cons s c (cs.map Except.ok ++ Except.error e :: rest) reads ho]
            simp [h3]

/-- Witness for C9: one good command, then a parse error. -/
theorem C9_driver_loop_witness :
    (runLoop Svf.new ([Command.Frequency none].map Except.ok) []).execed
      = [Command.Frequency none] ∧
    (runLoop Svf.new ([Command.Frequency none].map Except.ok
        ++ Except.error ⟨7⟩ :: []) []).result = RunResult.parse_failed ⟨7⟩ ∧
    (runLoop Svf.new ([Command.Frequency none].map Except.ok
        ++ Except.error ⟨7⟩ :: []) []).execed = [Command.Frequency none] :=
  C9_driver_loop [Command.Frequency none] [] Svf.new ⟨7⟩ [] (by decide)

/-- C10: when a RunTest is fatal (timed form, time qualifier, or non-TCK
clock), the sticky run-state/end-state updates have already been applied
and the transition to the run-state has already been issued; neither is
rolled back. -/
theorem C10_runtest_fatal_after_updates :
    (∀ (s : Svf) (rs es : Option State) (t : RunTestTime) (rd : List Nat),
      (s.run_command (Command.RunTest rs (RunTestForm.Timed t) es) rd).out = Outcome.fatal ∧
      (s.run_command (Command.RunTest rs (RunTestForm.Timed t) es) rd).svf.run_state
        = rs.elim s.run_state to_jtag_state ∧
      (s.run_command (Command.RunTest rs (RunTestForm.Timed t) es) rd).svf.end_state
        = es.elim s.end_state to_jtag_state ∧
      (s.run_command (Command.RunTest rs (RunTestForm.Timed t) es) rd).trace
        = [Event.ChangeMode (rs.elim s.run_state to_jtag_state)]) ∧
    (∀ (s : Svf) (rs es : Option State) (n : Nat) (c : RunClock) (t : RunTestTime)
        (rd : List Nat),
      (s.run_command (Command.RunTest rs (RunTestForm.Clocked n c (some t)) es) rd).out
        = Outcome.fatal ∧
      (s.run_command (Command.RunTest rs (RunTestForm.Clocked n c (some t)) es) rd).svf.run_state
        = rs.elim s.run_state to_jtag_state ∧
      (s.run_command (Command.RunTest rs (RunTestForm.Clocked n c (some t)) es) rd).svf.end_state
        = es.elim s.end_state to_jtag_state ∧
      (s.run_command (Command.RunTest rs (RunTestForm.Clocked n c (some t)) es) rd).trace
        = [Event.ChangeMode (rs.elim s.run_state to_jtag_state)]) ∧
    (∀ (s : Svf) (rs es : Option State) (n : Nat) (c : RunClock) (rd : List Nat),
      c ≠ RunClock.TCK →
      (s.run_command (Command.RunTest rs (RunTestForm.Clocked n c none) es) rd).out
        = Outcome.fatal ∧
      (s.run_command (Command.RunTest rs (RunTestForm.Clocked n c none) es) rd).svf.run_state
        = rs.elim s.run_state to_jtag_state ∧
      (s.run_command (Command.RunTest rs (RunTestForm.Clocked n c none) es) rd).svf.end_state
        = es.elim s.end_state to_jtag_state ∧
      (s.run_command (Command.RunTest rs (RunTestForm.Clocked n c none) es) rd).trace
        = [Event.ChangeMode (rs.elim s.run_state to_jtag_state)]) := by
  refine ⟨?_, ?_, ?_⟩
  · intro s rs es t rd
    refine ⟨?_, ?_, ?_, ?_⟩ <;> simp [Svf.run_command, mergeRunTest_eq]
  · intro s rs es n c t rd
    refine ⟨?_, ?_, ?_, ?_⟩ <;> simp [Svf.run_command, mergeRunTest_eq]
  · intro s rs es n c rd h
    refine ⟨?_, ?_, ?_, ?_⟩ <;> simp [Svf.run_command, mergeRunTest_eq, h]

/-- Witness for C10: a RunTest with the SCK clock source. -/
theorem C10_runtest_fatal_after_updates_witness :
    (Svf.new.run_command
      (Command.RunTest none (RunTestForm.Clocked 5 RunClock.SCK none) none) []).out
      = Outcome.fatal ∧
    (Svf.new.run_command
      (Command.RunTest none (RunTestForm.Clocked 5 RunClock.SCK none) none) []).svf.run_state
      = (none : Option State).elim Svf.new.run_state to_jtag_state ∧
    (Svf.new.run_command
      (Command.RunTest none (RunTestForm.Clocked 5 RunClock.SCK none) none) []).svf.end_state
      = (none : Option State).elim Svf.new.end_state to_jtag_state ∧
    (Svf.new.run_command
      (Command.RunTest none (RunTestForm.Clocked 5 RunClock.SCK none) none) []).trace
      = [Event.ChangeMode ((none : Option State).elim Svf.new.run_state to_jtag_state)] :=
  C10_runtest_fatal_after_updates.2.2 Svf.new none none 5 RunClock.SCK [] (by decide)
